import Mathlib

/-!
Verification of the rethread cooperative-cancellation library
(src/rethread/cancellation_token.hpp, condition_variable.hpp, poll.hpp).

The C++ code is shallowly embedded: the single atomic word
`_cancel_handler` of `cancellation_token` becomes the inductive `Slot`
(its four possible pointer values: nullptr, a registered handler address,
`cancelled_invalid_pointer() = (cancellation_handler*)1`, and
`not_initialized_invalid_pointer() = (cancellation_handler*)2`), handler
addresses become `Nat` identifiers, and each C++ member function becomes a
Lean function on an explicit state record.  `RETHREAD_ASSERT` failures
(which call `std::terminate`) and undefined behaviour are modelled by
`Option`: `none` means the operation aborts the program.

Sequential claims are settled against these functions directly.  The
concurrency claim about the guard/cancel handshake is settled against a
small-step interleaving model further below, checked by exhaustive
exploration of its (finite) reachable state space.
-/

namespace Rethread

/-- Values of the word-sized atomic `_cancel_handler`
(cancellation_token.hpp lines 55, 121-125). -/
inductive Slot where
  | null
  | handler (h : Nat)
  | cancelledSentinel
  | notInitSentinel
  deriving DecidableEq, Repr

/-- Truthiness of the stored pointer in a C++ `if`: only `nullptr` is
false; the sentinel values 1 and 2 and real handler addresses are truthy. -/
def Slot.truthy : Slot → Bool
  | .null => false
  | _ => true

/-- Whether the slot holds a real handler address. -/
def Slot.isHandler : Slot → Bool
  | .handler _ => true
  | _ => false

/-- `cancellation_token::is_cancelled` (line 58-59): a relaxed load of the
slot compared against `cancelled_invalid_pointer()`. -/
def isCancelledSlot (s : Slot) : Bool :=
  s == .cancelledSentinel

/-- Outcome of the registration fast path shared by all tokens. -/
inductive RegisterOutcome where
  | registered
  | notRegistered
  | slowInit
  | violation
  deriving DecidableEq, Repr

/-- `cancellation_token::try_register_cancellation_handler` (lines 83-95),
slot part: one atomic exchange of the slot with the handler address, then
a branch on the previous value.  Previous `nullptr`: registered.  Previous
`not_initialized_invalid_pointer()`: fall through to `do_initialize()`
(the slot keeps the freshly exchanged handler address).  Previous
`cancelled_invalid_pointer()`: restore the sentinel and report not
registered.  Any other previous value trips
RETHREAD_ASSERT("Cancellation handler already registered!"). -/
def tryRegisterSlot (s : Slot) (h : Nat) : Slot × RegisterOutcome :=
  match s with
  | .null => (.handler h, .registered)
  | .notInitSentinel => (.handler h, .slowInit)
  | .cancelledSentinel => (.cancelledSentinel, .notRegistered)
  | .handler _ => (.handler h, .violation)

/-- Outcome of the unregistration fast path shared by all tokens. -/
inductive UnregisterOutcome where
  | success
  | failed
  | violation
  deriving DecidableEq, Repr

/-- `cancellation_token::try_unregister_cancellation_handler`
(lines 99-108): one atomic exchange of the slot with `nullptr`.  Previous
value equal to the handler being unregistered: success.  Otherwise the
code asserts the previous value was `cancelled_invalid_pointer()`,
restores it and reports failure; any other previous value trips
RETHREAD_ASSERT("Another token was registered!"). -/
def tryUnregisterSlot (s : Slot) (h : Nat) : Slot × UnregisterOutcome :=
  match s with
  | .handler h0 => if h0 = h then (.null, .success) else (.null, .violation)
  | .cancelledSentinel => (.cancelledSentinel, .failed)
  | .null => (.null, .violation)
  | .notInitSentinel => (.null, .violation)

/-- State of a `standalone_cancellation_token` (lines 157-168): the
inherited atomic slot plus the mutex-protected booleans `_cancelled` and
`_cancel_done`.  The mutex and condition variable have no state of their
own in the sequential model. -/
structure StandaloneToken where
  slot : Slot
  cancelled : Bool
  cancel_done : Bool
  deriving DecidableEq, Repr

/-- A freshly constructed `standalone_cancellation_token`. -/
def freshStandalone : StandaloneToken :=
  { slot := .null, cancelled := false, cancel_done := false }

/-- `is_cancelled()` on a standalone token. -/
def StandaloneToken.isCancelled (s : StandaloneToken) : Bool :=
  isCancelledSlot s.slot

/-- `try_register_cancellation_handler` as invoked on a standalone token:
the shared fast path, where the `slowInit` outcome runs the base-class
`do_initialize()` (lines 73-74), which is `std::terminate()`, and a
`violation` outcome is the fatal assert. -/
def tryRegisterStandalone (s : StandaloneToken) (h : Nat) :
    Option (StandaloneToken × Bool) :=
  match tryRegisterSlot s.slot h with
  | (slot1, .registered) => some ({ s with slot := slot1 }, true)
  | (slot1, .notRegistered) => some ({ s with slot := slot1 }, false)
  | (_, .slowInit) => none
  | (_, .violation) => none

/-- `try_unregister_cancellation_handler` on a standalone token. -/
def tryUnregisterStandalone (s : StandaloneToken) (h : Nat) :
    Option (StandaloneToken × Bool) :=
  match tryUnregisterSlot s.slot h with
  | (slot1, .success) => some ({ s with slot := slot1 }, true)
  | (slot1, .failed) => some ({ s with slot := slot1 }, false)
  | (_, .violation) => none

/-- `standalone_cancellation_token::cancel` (lines 170-193), sequential
semantics: under the mutex, return if `_cancelled` is already set, else
set it; unlock; exchange the slot with `cancelled_invalid_pointer()`;
RETHREAD_ASSERT the previous value was not already the cancelled sentinel;
if the previous value is truthy invoke `cancelHandler->cancel()` (for the
`notInitSentinel` pointer value 2 that call is undefined behaviour, and
that value never occurs in a standalone token); relock and set
`_cancel_done`, waking the condition variable.  The returned `Bool`
reports whether `cancel()` was invoked on a registered handler. -/
def cancelStandalone (s : StandaloneToken) : Option (StandaloneToken × Bool) :=
  if s.cancelled then some (s, false)
  else
    match s.slot with
    | .cancelledSentinel => none
    | .handler _ =>
        some ({ slot := .cancelledSentinel, cancelled := true, cancel_done := true }, true)
    | .null =>
        some ({ slot := .cancelledSentinel, cancelled := true, cancel_done := true }, false)
    | .notInitSentinel => none

/-- The condition of the RETHREAD_ASSERT in
`standalone_cancellation_token::reset` (line 198), exactly as the source
writes it: `(_cancel_handler.load() || _cancel_handler ==
cancelled_invalid_pointer()) && (_cancelled == _cancel_done)`.  Note the
first disjunct is the plain truthiness of the loaded pointer. -/
def resetAssertCond (s : StandaloneToken) : Bool :=
  (s.slot.truthy || s.slot == .cancelledSentinel) && (s.cancelled == s.cancel_done)

/-- `standalone_cancellation_token::reset` (lines 195-202): if the assert
condition fails the library calls `std::terminate` (modelled `none`);
otherwise both flags are cleared and `nullptr` is stored in the slot. -/
def resetStandalone (s : StandaloneToken) : Option StandaloneToken :=
  if resetAssertCond s then some freshStandalone else none

/-- Modelled from the spec (section 4.3): the precondition the
specification states for `reset()` - the slot is `NULL` or
`CANCELLED_SENTINEL`, and `cancelled == cancel_done`.  Kept separate from
`resetAssertCond`, which transcribes the source, so the two can be
compared. -/
def resetSpecPrecondition (s : StandaloneToken) : Bool :=
  (s.slot == .null || s.slot == .cancelledSentinel) && (s.cancelled == s.cancel_done)

/-- C2: the spec precondition and the code diverge.  On a fresh token
(slot `NULL`, both flags false) the spec precondition holds and reset must
succeed, but the assert condition written in the source is false, so
`RETHREAD_ASSERT` fires "Cancellation token is in use!" and the program
terminates.  Conversely, with a handler registered (a state the spec
forbids resetting from) the source condition is true and reset proceeds.
The load in the source is missing a negation; the earlier revision in
cancellation_token.h checks `!_cancelHandler && ...`. -/
theorem reset_assert_contradicts_spec :
    resetSpecPrecondition freshStandalone = true ∧
    resetStandalone freshStandalone = none ∧
    resetSpecPrecondition { slot := .handler 7, cancelled := false, cancel_done := false } = false ∧
    resetStandalone { slot := .handler 7, cancelled := false, cancel_done := false } =
      some freshStandalone ∧
    resetStandalone { slot := .cancelledSentinel, cancelled := true, cancel_done := true } =
      some freshStandalone := by
  refine ⟨rfl, rfl, rfl, rfl, rfl⟩

/-- C3: the registration fast path.  The exchange with the handler address
is performed unconditionally (visible in the result slot of every case);
previous value `NULL` means registered, previous `CANCELLED_SENTINEL` is
restored and reported as not registered, and a previous real handler
address (the only other value apart from the sourced tokens' not-yet-
initialised sentinel) is the fatal double-registration violation, which on
a standalone token aborts the program. -/
theorem tryRegister_fast_path (h h0 : Nat) :
    tryRegisterSlot .null h = (.handler h, .registered) ∧
    tryRegisterSlot .cancelledSentinel h = (.cancelledSentinel, .notRegistered) ∧
    tryRegisterSlot (.handler h0) h = (.handler h, .violation) ∧
    (∀ c d : Bool, tryRegisterStandalone { slot := .null, cancelled := c, cancel_done := d } h =
      some ({ slot := .handler h, cancelled := c, cancel_done := d }, true)) ∧
    (∀ c d : Bool,
      tryRegisterStandalone { slot := .cancelledSentinel, cancelled := c, cancel_done := d } h =
        some ({ slot := .cancelledSentinel, cancelled := c, cancel_done := d }, false)) ∧
    (∀ c d : Bool,
      tryRegisterStandalone { slot := .handler h0, cancelled := c, cancel_done := d } h = none) := by
  refine ⟨rfl, rfl, rfl, fun c d => rfl, fun c d => rfl, fun c d => rfl⟩

/-- States a standalone token actually reaches under sequential use
(construction, cancels, resets, register/unregister brackets): the
`_cancelled` flag agrees with the slot holding the cancelled sentinel,
`_cancel_done` agrees with `_cancelled` once `cancel()` has returned, and
the not-yet-initialised sentinel belongs only to sourced tokens. -/
def StandaloneToken.wf (s : StandaloneToken) : Prop :=
  s.cancelled = (s.slot == .cancelledSentinel) ∧
  s.cancel_done = s.cancelled ∧
  s.slot ≠ .notInitSentinel

instance (s : StandaloneToken) : Decidable s.wf := by
  unfold StandaloneToken.wf
  infer_instance

/-- A sequence of `n` consecutive `cancel()` calls on a standalone token;
the `Nat` accumulates how many times `cancellation_handler::cancel()` was
invoked across the sequence. -/
def cancelSeq (s : StandaloneToken) : Nat → Option (StandaloneToken × Nat)
  | 0 => some (s, 0)
  | n + 1 =>
    match cancelStandalone s with
    | none => none
    | some (s1, b) =>
      match cancelSeq s1 n with
      | none => none
      | some (s2, c) => some (s2, (if b then 1 else 0) + c)

theorem cancelSeq_of_cancelled (s : StandaloneToken) (hc : s.cancelled = true) :
    ∀ n, cancelSeq s n = some (s, 0) := by
  intro n
  induction n with
  | zero => rfl
  | succ n ih =>
    simp [cancelSeq, cancelStandalone, hc, ih]

/-- C6: `cancel()` is idempotent.  From any well-formed standalone token
state, a sequence of `n ≥ 2` cancel calls leaves exactly the state and
handler-invocation count of a single call, and when a handler was
registered at the point cancellation began, `cancel()` is invoked on it
exactly once across the whole sequence. -/
theorem cancel_idempotent (s : StandaloneToken) (hwf : s.wf) (n : Nat) (hn : 2 ≤ n) :
    cancelSeq s n = cancelSeq s 1 ∧
    (∀ h, s.slot = .handler h →
      cancelSeq s n =
        some ({ slot := .cancelledSentinel, cancelled := true, cancel_done := true }, 1)) := by
  obtain ⟨hflag, hdone, hni⟩ := hwf
  by_cases hc : s.cancelled = true
  · refine ⟨by rw [cancelSeq_of_cancelled s hc n, cancelSeq_of_cancelled s hc 1], ?_⟩
    intro h hs
    rw [hs] at hflag
    simp [hc] at hflag
  · have hc' : s.cancelled = false := by
      cases hcc : s.cancelled
      · rfl
      · exact absurd hcc hc
    have hslot : s.slot ≠ .cancelledSentinel := by
      intro hcs
      rw [hcs] at hflag
      simp [hc'] at hflag
    obtain ⟨n', rfl⟩ : ∃ n', n = n' + 1 := ⟨n - 1, by omega⟩
    have hn' : 1 ≤ n' := by omega
    have hrest := cancelSeq_of_cancelled
      { slot := .cancelledSentinel, cancelled := true, cancel_done := true } rfl
    cases hss : s.slot with
    | null =>
      have hstep : cancelStandalone s =
          some ({ slot := .cancelledSentinel, cancelled := true, cancel_done := true }, false) := by
        simp [cancelStandalone, hc', hss]
      refine ⟨?_, ?_⟩
      · simp [cancelSeq, hstep, hrest n']
      · intro h hs
        exact absurd hs (by simp [hss])
    | handler h0 =>
      have hstep : cancelStandalone s =
          some ({ slot := .cancelledSentinel, cancelled := true, cancel_done := true }, true) := by
        simp [cancelStandalone, hc', hss]
      refine ⟨?_, ?_⟩
      · simp [cancelSeq, hstep, hrest n']
      · intro h hs
        simp [cancelSeq, hstep, hrest n']
    | cancelledSentinel => exact absurd hss hslot
    | notInitSentinel => exact absurd hss hni

/-- Witness for C6: a token with handler 3 registered, cancelled three
times, reaches the cancelled state with exactly one handler invocation. -/
theorem cancel_idempotent_witness :
    cancelSeq { slot := .handler 3, cancelled := false, cancel_done := false } 3 =
      cancelSeq { slot := .handler 3, cancelled := false, cancel_done := false } 1 ∧
    cancelSeq { slot := .handler 3, cancelled := false, cancel_done := false } 3 =
      some ({ slot := .cancelledSentinel, cancelled := true, cancel_done := true }, 1) := by
  have h := cancel_idempotent
    { slot := .handler 3, cancelled := false, cancel_done := false } (by decide) 3 (by decide)
  exact ⟨h.1, h.2 3 rfl⟩

/-- Registering each handler of a list in turn, collecting the results;
models a sequence of `try_register_cancellation_handler` calls. -/
def tryRegisterMany (s : StandaloneToken) : List Nat → Option (StandaloneToken × List Bool)
  | [] => some (s, [])
  | h :: rest =>
    match tryRegisterStandalone s h with
    | none => none
    | some (s1, b) =>
      match tryRegisterMany s1 rest with
      | none => none
      | some (s2, bs) => some (s2, b :: bs)

theorem tryRegister_on_cancelled (s : StandaloneToken) (h : Nat)
    (hs : s.slot = .cancelledSentinel) : tryRegisterStandalone s h = some (s, false) := by
  cases s with
  | mk slot c d =>
    cases hs
    rfl

theorem tryRegisterMany_on_cancelled (s : StandaloneToken)
    (hs : s.slot = .cancelledSentinel) :
    ∀ l : List Nat, tryRegisterMany s l = some (s, l.map fun _ => false) := by
  intro l
  induction l with
  | nil => rfl
  | cons h rest ih =>
    simp only [tryRegisterMany, tryRegister_on_cancelled s h hs, ih, List.map]

/-- C7: once `cancel()` has returned on a well-formed standalone token,
`is_cancelled()` is true, and every subsequent sequence of registration
attempts fails (each returns false) while leaving the token unchanged, so
registration keeps failing until `reset()` replaces the state. -/
theorem cancel_then_register_fails (s s' : StandaloneToken) (b : Bool)
    (hwf : s.wf) (hc : cancelStandalone s = some (s', b)) (hs : List Nat) :
    s'.isCancelled = true ∧
    tryRegisterMany s' hs = some (s', hs.map fun _ => false) := by
  obtain ⟨hflag, hdone, hni⟩ := hwf
  have hslot : s'.slot = .cancelledSentinel := by
    by_cases hcc : s.cancelled = true
    · have : s.slot == Slot.cancelledSentinel := by rw [← hflag]; exact hcc
      have hcs : s.slot = .cancelledSentinel := by simpa using this
      simp only [cancelStandalone, hcc, if_true, Option.some.injEq, Prod.mk.injEq] at hc
      rw [← hc.1, hcs]
    · have hc' : s.cancelled = false := by
        cases h2 : s.cancelled
        · rfl
        · exact absurd h2 hcc
      cases hss : s.slot with
      | null =>
        simp only [cancelStandalone, hc', hss, Bool.false_eq_true, if_false,
          Option.some.injEq, Prod.mk.injEq] at hc
        rw [← hc.1]
      | handler h0 =>
        simp only [cancelStandalone, hc', hss, Bool.false_eq_true, if_false,
          Option.some.injEq, Prod.mk.injEq] at hc
        rw [← hc.1]
      | cancelledSentinel =>
        rw [hss] at hflag
        simp [hc'] at hflag
      | notInitSentinel => exact absurd hss hni
  refine ⟨?_, tryRegisterMany_on_cancelled s' hslot hs⟩
  simp [StandaloneToken.isCancelled, isCancelledSlot, hslot]

/-- Witness for C7: cancel a fresh token, then two registration attempts
both fail and the token still reports cancelled. -/
theorem cancel_then_register_fails_witness :
    StandaloneToken.isCancelled
      { slot := .cancelledSentinel, cancelled := true, cancel_done := true } = true ∧
    tryRegisterMany
      { slot := .cancelledSentinel, cancelled := true, cancel_done := true } [1, 2] =
      some ({ slot := .cancelledSentinel, cancelled := true, cancel_done := true },
        [false, false]) := by
  have h := cancel_then_register_fails freshStandalone
    { slot := .cancelledSentinel, cancelled := true, cancel_done := true } false
    (by decide) rfl [1, 2]
  exact ⟨h.1, h.2⟩

/-- State of one `sourced_cancellation_token` (lines 253-358): the
inherited atomic slot plus the `_registered` flag recording membership in
the source's intrusive token list.  The shared `_data` handle is the
enclosing `SourceWorld`. -/
structure SourcedTokenState where
  slot : Slot
  registered : Bool
  deriving DecidableEq, Repr

/-- The shared `detail::cancellation_source_data` (lines 236-246):
`_cancelled`, `_cancel_done`, and the intrusive token list `_tokens`,
modelled as the list of indices of the linked tokens in vend order (the
mutex and condition variable carry no sequential state). -/
structure SourceState where
  cancelled : Bool
  cancel_done : Bool
  tokensList : List Nat
  deriving DecidableEq, Repr

/-- One `cancellation_token_source` together with every token it has
vended (`vended` is indexed by vend order; tokens share `_data`). -/
structure SourceWorld where
  src : SourceState
  vended : List SourcedTokenState
  deriving DecidableEq, Repr

/-- A freshly constructed `cancellation_token_source` with no tokens. -/
def freshSource : SourceWorld :=
  { src := { cancelled := false, cancel_done := false, tokensList := [] }, vended := [] }

/-- `cancellation_token_source::create_token` (lines 396-397): the private
constructor (lines 334-336) passes `not_initialized_invalid_pointer()` as
the initial slot value and shares `_data`; the new token is not in the
token list.  Returns the world plus the new token's index. -/
def createToken (w : SourceWorld) : SourceWorld × Nat :=
  ({ w with vended := w.vended ++ [{ slot := .notInitSentinel, registered := false }] },
   w.vended.length)

/-- `try_register_cancellation_handler` on sourced token `i`: the shared
fast path (lines 83-95); the `slowInit` outcome runs
`sourced_cancellation_token::do_initialize` (lines 320-331): assert the
token is not yet registered, push it onto `_data->_tokens` under the
mutex, mark it registered; if the source is not cancelled report success
(the slot keeps the handler address placed by the exchange), else store
the cancelled sentinel and report failure. -/
def tryRegisterSourced (w : SourceWorld) (i h : Nat) : Option (SourceWorld × Bool) :=
  match w.vended[i]? with
  | none => none
  | some t =>
    match tryRegisterSlot t.slot h with
    | (slot1, .registered) =>
        some ({ w with vended := w.vended.set i { t with slot := slot1 } }, true)
    | (slot1, .notRegistered) =>
        some ({ w with vended := w.vended.set i { t with slot := slot1 } }, false)
    | (slot1, .slowInit) =>
        if t.registered then none
        else
          let t1 : SourcedTokenState := { slot := slot1, registered := true }
          let w1 : SourceWorld :=
            { src := { w.src with tokensList := w.src.tokensList ++ [i] },
              vended := w.vended.set i t1 }
          if w.src.cancelled then
            some ({ w1 with
              vended := w1.vended.set i { t1 with slot := .cancelledSentinel } }, false)
          else some (w1, true)
    | (_, .violation) => none

/-- The walk over `_data->_tokens` inside `cancellation_token_source::cancel`
(lines 386-387), each step being `sourced_cancellation_token::cancel_impl`
(lines 338-355): exchange the token's slot with the cancelled sentinel;
RETHREAD_ASSERT the previous value is neither the not-initialised sentinel
nor the cancelled sentinel; if it is a handler address, call `cancel()` on
it with the mutex released.  Returns the updated token array and how many
handlers were cancelled. -/
def cancelTokens : List Nat → List SourcedTokenState → Option (List SourcedTokenState × Nat)
  | [], v => some (v, 0)
  | i :: rest, v =>
    match v[i]? with
    | none => none
    | some t =>
      if t.slot = .notInitSentinel ∨ t.slot = .cancelledSentinel then none
      else
        match cancelTokens rest (v.set i { t with slot := .cancelledSentinel }) with
        | none => none
        | some (v1, c) => some (v1, (if t.slot.isHandler then 1 else 0) + c)

/-- `cancellation_token_source::cancel` (lines 378-391): under the mutex,
return if `_cancelled` is already set; else set it, run `cancel_impl` on
every token in `_data->_tokens`, then set `_cancel_done` and wake the
condition variable. -/
def sourceCancel (w : SourceWorld) : Option (SourceWorld × Nat) :=
  if w.src.cancelled then some (w, 0)
  else
    match cancelTokens w.src.tokensList w.vended with
    | none => none
    | some (v1, c) =>
      some ({ src := { cancelled := true, cancel_done := true,
                       tokensList := w.src.tokensList },
              vended := v1 }, c)

theorem cancelTokens_preserves_cancelled (l : List Nat) :
    ∀ (v v1 : List SourcedTokenState) (c : Nat), cancelTokens l v = some (v1, c) →
      ∀ (i : Nat) (t : SourcedTokenState), v[i]? = some t → t.slot = .cancelledSentinel →
        ∃ t1, v1[i]? = some t1 ∧ t1.slot = .cancelledSentinel := by
  induction l with
  | nil =>
    intro v v1 c hc i t hi ht
    simp only [cancelTokens, Option.some.injEq, Prod.mk.injEq] at hc
    exact ⟨t, by rw [← hc.1]; exact hi, ht⟩
  | cons j rest ih =>
    intro v v1 c hc i t hi ht
    cases hj : v[j]? with
    | none =>
      simp only [cancelTokens, hj] at hc
      exact Option.noConfusion hc
    | some tj =>
      simp only [cancelTokens, hj] at hc
      by_cases hbad : tj.slot = .notInitSentinel ∨ tj.slot = .cancelledSentinel
      · rw [if_pos hbad] at hc
        exact absurd hc (by simp)
      · rw [if_neg hbad] at hc
        have hne : j ≠ i := by
          intro hji
          rw [hji, hi] at hj
          cases hj
          exact hbad (Or.inr ht)
        cases hrec : cancelTokens rest (v.set j { tj with slot := .cancelledSentinel }) with
        | none =>
          simp only [hrec] at hc
          exact Option.noConfusion hc
        | some p =>
          obtain ⟨v2, c2⟩ := p
          simp only [hrec, Option.some.injEq, Prod.mk.injEq] at hc
          refine ih _ _ _ (by rw [hrec, hc.1]) i t ?_ ht
          rw [List.getElem?_set_ne hne, hi]

theorem cancelTokens_cancels_listed (l : List Nat) :
    ∀ (v v1 : List SourcedTokenState) (c : Nat), cancelTokens l v = some (v1, c) →
      ∀ i, i ∈ l → ∃ t1, v1[i]? = some t1 ∧ t1.slot = .cancelledSentinel := by
  induction l with
  | nil =>
    intro v v1 c hc i hi
    exact absurd hi (List.not_mem_nil i)
  | cons j rest ih =>
    intro v v1 c hc i hi
    cases hj : v[j]? with
    | none =>
      simp only [cancelTokens, hj] at hc
      exact Option.noConfusion hc
    | some tj =>
      simp only [cancelTokens, hj] at hc
      by_cases hbad : tj.slot = .notInitSentinel ∨ tj.slot = .cancelledSentinel
      · rw [if_pos hbad] at hc
        exact absurd hc (by simp)
      · rw [if_neg hbad] at hc
        cases hrec : cancelTokens rest (v.set j { tj with slot := .cancelledSentinel }) with
        | none =>
          simp only [hrec] at hc
          exact Option.noConfusion hc
        | some p =>
          obtain ⟨v2, c2⟩ := p
          simp only [hrec, Option.some.injEq, Prod.mk.injEq] at hc
          have hjlen : j < v.length := by
            by_contra hlen
            rw [List.getElem?_eq_none (by omega)] at hj
            cases hj
          rcases List.mem_cons.1 hi with hij | hirest
          · subst hij
            exact cancelTokens_preserves_cancelled rest _ _ _ (by rw [hrec, hc.1]) i
              { tj with slot := .cancelledSentinel }
              (List.getElem?_set_eq_of_lt _ hjlen) rfl
          · exact ih _ _ _ (by rw [hrec, hc.1]) i hirest

/-- C1 as stated is refuted by a source with one vended token on which no
handler was ever registered: the token is not linked into
`_data->_tokens`, so `cancel()` never touches its slot, which still holds
the not-initialised sentinel, and `is_cancelled()` returns false after
`source.cancel()` has returned. -/
theorem source_cancel_misses_unregistered_token :
    (createToken freshSource).1.src.cancelled = false ∧
    sourceCancel (createToken freshSource).1 =
      some ({ src := { cancelled := true, cancel_done := true, tokensList := [] },
              vended := [{ slot := .notInitSentinel, registered := false }] }, 0) ∧
    ∀ t, ({ src := { cancelled := true, cancel_done := true, tokensList := [] },
            vended := [{ slot := .notInitSentinel, registered := false }] } :
            SourceWorld).vended[0]? = some t → isCancelledSlot t.slot = false := by
  refine ⟨rfl, rfl, ?_⟩
  intro t ht
  cases ht
  rfl

/-- C1 amended: after a single successful `source.cancel()` from the
not-yet-cancelled state, every vended token that had been initialised -
linked into `_data->_tokens` by its first handler registration - has the
cancelled sentinel in its slot, so `is_cancelled()` on it returns true;
tokens never used with a guard are not visited and keep reporting false. -/
theorem source_cancel_cancels_linked_tokens (w w1 : SourceWorld) (c : Nat)
    (hnc : w.src.cancelled = false) (hc : sourceCancel w = some (w1, c)) :
    ∀ i, i ∈ w.src.tokensList →
      ∃ t1, w1.vended[i]? = some t1 ∧ isCancelledSlot t1.slot = true := by
  intro i hi
  simp only [sourceCancel, hnc, Bool.false_eq_true, if_false] at hc
  cases hct : cancelTokens w.src.tokensList w.vended with
  | none => rw [hct] at hc; exact absurd hc (by simp)
  | some p =>
    rw [hct] at hc
    obtain ⟨v1, c1⟩ := p
    simp only [Option.some.injEq, Prod.mk.injEq] at hc
    obtain ⟨t1, ht1, hslot⟩ := cancelTokens_cancels_listed w.src.tokensList w.vended v1 c1 hct i hi
    refine ⟨t1, ?_, by simp [isCancelledSlot, hslot]⟩
    rw [← hc.1]
    exact ht1

/-- Witness for the amended C1: a source with two vended tokens, the first
initialised by a handler registration, the second untouched; after
`cancel()` the first reports cancelled (and, per the counterexample
theorem, the second does not). -/
theorem source_cancel_cancels_linked_tokens_witness :
    ∃ t1, ({ src := { cancelled := true, cancel_done := true, tokensList := [0] },
             vended := [{ slot := .cancelledSentinel, registered := true },
                        { slot := .notInitSentinel, registered := false }] } :
             SourceWorld).vended[0]? = some t1 ∧ isCancelledSlot t1.slot = true := by
  exact source_cancel_cancels_linked_tokens
    { src := { cancelled := false, cancel_done := false, tokensList := [0] },
      vended := [{ slot := .handler 4, registered := true },
                 { slot := .notInitSentinel, registered := false }] }
    { src := { cancelled := true, cancel_done := true, tokensList := [0] },
      vended := [{ slot := .cancelledSentinel, registered := true },
                 { slot := .notInitSentinel, registered := false }] }
    1 rfl rfl 0 (by decide)

/-- C9: a token vended by `create_token()` starts with the not-initialised
sentinel in its slot, so its first registration takes the slow path
`do_initialize`, which links the token into the source's list; if the
source is already cancelled at that moment the registration returns false
and the slot becomes the cancelled sentinel, otherwise it returns true
with the handler registered. -/
theorem create_token_first_registration (w : SourceWorld) (i h : Nat)
    (t : SourcedTokenState) (hi : w.vended[i]? = some t)
    (hslot : t.slot = .notInitSentinel) (hreg : t.registered = false) :
    (createToken w).1.vended[(createToken w).2]? =
      some { slot := .notInitSentinel, registered := false } ∧
    (w.src.cancelled = false →
      tryRegisterSourced w i h =
        some ({ src := { w.src with tokensList := w.src.tokensList ++ [i] },
                vended := w.vended.set i { slot := .handler h, registered := true } }, true)) ∧
    (w.src.cancelled = true →
      tryRegisterSourced w i h =
        some ({ src := { w.src with tokensList := w.src.tokensList ++ [i] },
                vended := (w.vended.set i { slot := .handler h, registered := true }).set i
                  { slot := .cancelledSentinel, registered := true } }, false)) := by
    refine ⟨List.getElem?_concat_length _ _, ?_, ?_⟩
    · intro hnc
      simp [tryRegisterSourced, hi, hslot, tryRegisterSlot, hreg, hnc]
    · intro hcanc
      simp [tryRegisterSourced, hi, hslot, tryRegisterSlot, hreg, hcanc]

/-- Witness for C9: the fresh token of a one-token world registers through
the slow path and is linked; on an already-cancelled source it is linked
but the registration fails with the cancelled sentinel stored. -/
theorem create_token_first_registration_witness :
    tryRegisterSourced
      { src := { cancelled := false, cancel_done := false, tokensList := [] },
        vended := [{ slot := .notInitSentinel, registered := false }] } 0 5 =
      some ({ src := { cancelled := false, cancel_done := false, tokensList := [0] },
              vended := [{ slot := .handler 5, registered := true }] }, true) ∧
    tryRegisterSourced
      { src := { cancelled := true, cancel_done := true, tokensList := [] },
        vended := [{ slot := .notInitSentinel, registered := false }] } 0 5 =
      some ({ src := { cancelled := true, cancel_done := true, tokensList := [0] },
              vended := [{ slot := .cancelledSentinel, registered := true }] }, false) := by
  constructor
  · exact (create_token_first_registration
      { src := { cancelled := false, cancel_done := false, tokensList := [] },
        vended := [{ slot := .notInitSentinel, registered := false }] } 0 5
      { slot := .notInitSentinel, registered := false } rfl rfl rfl).2.1 rfl
  · exact (create_token_first_registration
      { src := { cancelled := true, cancel_done := true, tokensList := [] },
        vended := [{ slot := .notInitSentinel, registered := false }] } 0 5
      { slot := .notInitSentinel, registered := false } rfl rfl rfl).2.2 rfl

/-- `std::cv_status`. -/
inductive CvStatus where
  | no_timeout
  | timeout
  deriving DecidableEq, Repr

/-- `POLLIN` from `<poll.h>` (0x001 on Linux). -/
def POLLIN : Nat := 1

/-- `POLLERR` from `<poll.h>` (0x008 on Linux). -/
def POLLERR : Nat := 8

/-- `POLLHUP` from `<poll.h>` (0x010 on Linux). -/
def POLLHUP : Nat := 16

/-- `rethread::poll` (poll.hpp lines 101-118) against a standalone token,
sequential semantics: construct a `poll_cancellation_handler`, register it
through a `cancellation_guard`; if the guard reports cancelled return `0`;
otherwise call the blocking `::poll` on `{fd, events}` and the handler's
eventfd - its result for `fds[0].revents` is the oracle `osRevents` - and
return it, after the guard destructor unregisters the handler.  With no
concurrent `cancel()` the destructor's fast path always succeeds; the
slow-path teardown is analysed in the handshake model below. -/
def pollStandalone (s : StandaloneToken) (h osRevents : Nat) :
    Option (Nat × StandaloneToken) :=
  match tryRegisterStandalone s h with
  | none => none
  | some (s1, false) => some (0, s1)
  | some (s1, true) =>
    match tryUnregisterStandalone s1 h with
    | some (s2, true) => some (osRevents, s2)
    | _ => none

/-- `rethread::wait_for` (condition_variable.hpp lines 164-173) against a
standalone token, sequential semantics: register a
`cv_cancellation_handler` through a `cv_cancellation_guard`; if the guard
reports cancelled return `std::cv_status::no_timeout`; else the result of
the plain `cv.wait_for` is the oracle `cvRes`. -/
def waitForStandalone (s : StandaloneToken) (h : Nat) (cvRes : CvStatus) :
    Option (CvStatus × StandaloneToken) :=
  match tryRegisterStandalone s h with
  | none => none
  | some (s1, false) => some (.no_timeout, s1)
  | some (s1, true) =>
    match tryUnregisterStandalone s1 h with
    | some (s2, true) => some (cvRes, s2)
    | _ => none

/-- `rethread::read` (poll.hpp lines 127-132): cancellable poll for
`POLLIN`; if the poll result is anything other than exactly `POLLIN`,
return `0` without calling `::read`, else return the result of `::read`
(the oracle `osReadRet`).  The middle component records whether the
underlying `::read` was invoked. -/
def readStandalone (s : StandaloneToken) (h osRevents : Nat) (osReadRet : Int) :
    Option (Int × Bool × StandaloneToken) :=
  match pollStandalone s h osRevents with
  | none => none
  | some (rev, s1) =>
    if rev ≠ POLLIN then some (0, false, s1) else some (osReadRet, true, s1)

/-- The wait loop of the predicate form of `rethread::wait`
(condition_variable.hpp lines 115-122): `cv.wait(lock); while
(!predicate()) { if (!token) return false; cv.wait(lock); }` - the oracle
`pred k` is the value of the `k`-th call to `predicate()` (call 0 being
the short-circuit check before registration), `tokLive k` is the value of
`(bool)token` at the check that follows predicate call `k`, and the result
carries the index of the last predicate call.  `fuel` bounds the number of
iterations; `none` means the wait had not returned within the bound. -/
def waitPredAux (pred tokLive : Nat → Bool) : Nat → Nat → Option (Bool × Nat)
  | _, 0 => none
  | k, fuel + 1 =>
    if pred k then some (true, k)
    else if tokLive k then waitPredAux pred tokLive (k + 1) fuel
    else some (false, k)

/-- Outcome of the predicate form of `rethread::wait`: the returned value,
whether a handler was constructed and registration attempted (lines
109-111 are only reached when the initial predicate check fails), and the
index of the last `predicate()` call. -/
structure WaitOutcome where
  result : Bool
  handlerConstructed : Bool
  lastPred : Nat
  deriving DecidableEq, Repr

/-- The predicate form `rethread::wait(cv, lock, token, pred)`
(condition_variable.hpp lines 103-123) against a standalone token: return
true at once when `pred()` already holds (no handler is constructed);
otherwise register a handler through the guard, return false when the
guard reports the token cancelled, else run the wait loop.  Guard teardown
does not affect the returned value and is analysed in the handshake model
below. -/
def waitPredStandalone (s : StandaloneToken) (h : Nat) (pred tokLive : Nat → Bool)
    (fuel : Nat) : Option WaitOutcome :=
  if pred 0 then some { result := true, handlerConstructed := false, lastPred := 0 }
  else
    match tryRegisterStandalone s h with
    | none => none
    | some (_, false) => some { result := false, handlerConstructed := true, lastPred := 0 }
    | some (_, true) =>
      match waitPredAux pred tokLive 1 fuel with
      | none => none
      | some (b, k) => some { result := b, handlerConstructed := true, lastPred := k }

theorem waitPredAux_spec (pred tokLive : Nat → Bool) :
    ∀ (fuel k : Nat) (b : Bool) (m : Nat), waitPredAux pred tokLive k fuel = some (b, m) →
      k ≤ m ∧ b = pred m ∧ ∀ j, k ≤ j → j < m → pred j = false ∧ tokLive j = true := by
  intro fuel
  induction fuel with
  | zero =>
    intro k b m hh
    exact Option.noConfusion hh
  | succ fuel ih =>
    intro k b m hh
    simp only [waitPredAux] at hh
    by_cases hp : pred k = true
    · rw [if_pos hp] at hh
      simp only [Option.some.injEq, Prod.mk.injEq] at hh
      obtain ⟨hb, hm⟩ := hh
      subst hm
      refine ⟨Nat.le_refl k, by rw [← hb, hp], ?_⟩
      intro j hj1 hj2
      omega
    · rw [if_neg hp] at hh
      have hp' : pred k = false := Bool.eq_false_iff.2 hp
      by_cases ht : tokLive k = true
      · rw [if_pos ht] at hh
        obtain ⟨hle, hb, hmid⟩ := ih (k + 1) b m hh
        refine ⟨by omega, hb, ?_⟩
        intro j hj1 hj2
        rcases Nat.eq_or_lt_of_le hj1 with hjk | hjk
        · rw [← hjk]
          exact ⟨hp', ht⟩
        · exact hmid j (by omega) hj2
      · rw [if_neg ht] at hh
        simp only [Option.some.injEq, Prod.mk.injEq] at hh
        obtain ⟨hb, hm⟩ := hh
        subst hm
        refine ⟨Nat.le_refl k, by rw [← hb, hp'], ?_⟩
        intro j hj1 hj2
        omega

/-- C8: the predicate form of `wait`.  If `pred()` already holds at entry
it returns true with no handler constructed; otherwise a handler is
constructed and registered; the wait loop runs while the predicate is
false and the token live (every intermediate predicate call returned false
and every intermediate token check was live), and the returned value is
exactly the value of the last `predicate()` call. -/
theorem wait_predicate_loop (s : StandaloneToken) (h : Nat) (pred tokLive : Nat → Bool)
    (fuel : Nat) (r : WaitOutcome)
    (hr : waitPredStandalone s h pred tokLive fuel = some r) :
    (pred 0 = true → r = { result := true, handlerConstructed := false, lastPred := 0 }) ∧
    (pred 0 = false → r.handlerConstructed = true) ∧
    r.result = pred r.lastPred ∧
    (∀ k, k < r.lastPred → pred k = false) ∧
    (∀ k, 1 ≤ k → k < r.lastPred → tokLive k = true) := by
  by_cases hp0 : pred 0 = true
  · simp only [waitPredStandalone, hp0, if_true, Option.some.injEq] at hr
    subst hr
    refine ⟨fun _ => rfl, fun hcon => absurd hp0 (by rw [hcon]; simp), by simpa using hp0.symm, ?_, ?_⟩
    · intro k hk
      exact absurd hk (Nat.not_lt_zero k)
    · intro k hk1 hk2
      exact absurd hk2 (Nat.not_lt_zero k)
  · have hp0' : pred 0 = false := Bool.eq_false_iff.2 hp0
    simp only [waitPredStandalone, hp0', Bool.false_eq_true, if_false] at hr
    cases hreg : tryRegisterStandalone s h with
    | none =>
      rw [hreg] at hr
      exact Option.noConfusion hr
    | some p =>
      obtain ⟨s1, bb⟩ := p
      rw [hreg] at hr
      cases bb with
      | false =>
        simp only [Option.some.injEq] at hr
        subst hr
        refine ⟨fun hcon => absurd hcon hp0, fun _ => rfl, by simpa using hp0'.symm, ?_, ?_⟩
        · intro k hk
          exact absurd hk (Nat.not_lt_zero k)
        · intro k hk1 hk2
          exact absurd hk2 (Nat.not_lt_zero k)
      | true =>
        cases haux : waitPredAux pred tokLive 1 fuel with
        | none =>
          rw [haux] at hr
          exact Option.noConfusion hr
        | some q =>
          obtain ⟨b, m⟩ := q
          rw [haux] at hr
          simp only [Option.some.injEq] at hr
          subst hr
          obtain ⟨h1m, hbm, hmid⟩ := waitPredAux_spec pred tokLive fuel 1 b m haux
          refine ⟨fun hcon => absurd hcon hp0, fun _ => rfl, hbm, ?_, ?_⟩
          · intro k hk
            rcases Nat.eq_zero_or_pos k with hk0 | hkpos
            · rw [hk0]
              exact hp0'
            · exact (hmid k (by omega) hk).1
          · intro k hk1 hk2
            exact (hmid k hk1 hk2).2

/-- Witness for C8: with the predicate becoming true at its third call,
the wait returns true and that value equals the last predicate call. -/
theorem wait_predicate_loop_witness :
    ({ result := true, handlerConstructed := true, lastPred := 2 } : WaitOutcome).result =
      (fun k : Nat => decide (k = 2)) 2 :=
  (wait_predicate_loop freshStandalone 2 (fun k => decide (k = 2)) (fun _ => true) 5
    { result := true, handlerConstructed := true, lastPred := 2 } rfl).2.2.1

/-- C5: when the token is already cancelled at entry, guard registration
fails and each blocking adapter returns normally with its stated
indication: `poll` returns `0` revents, `wait_for` returns
`std::cv_status::no_timeout`, and the predicate form of `wait` returns
false when the predicate did not already hold at entry. -/
theorem cancelled_wait_returns_indication (s : StandaloneToken) (h osRevents : Nat)
    (cvRes : CvStatus) (pred tokLive : Nat → Bool) (fuel : Nat)
    (hc : s.slot = .cancelledSentinel) (hp : pred 0 = false) :
    pollStandalone s h osRevents = some (0, s) ∧
    waitForStandalone s h cvRes = some (.no_timeout, s) ∧
    waitPredStandalone s h pred tokLive fuel =
      some { result := false, handlerConstructed := true, lastPred := 0 } := by
  have hreg := tryRegister_on_cancelled s h hc
  refine ⟨?_, ?_, ?_⟩
  · simp only [pollStandalone, hreg]
  · simp only [waitForStandalone, hreg]
  · simp only [waitPredStandalone, hp, Bool.false_eq_true, if_false, hreg]

/-- Witness for C5: a cancelled standalone token makes all three adapters
return their cancellation indication. -/
theorem cancelled_wait_returns_indication_witness :
    pollStandalone { slot := .cancelledSentinel, cancelled := true, cancel_done := true } 1 7 =
      some (0, { slot := .cancelledSentinel, cancelled := true, cancel_done := true }) ∧
    waitForStandalone { slot := .cancelledSentinel, cancelled := true, cancel_done := true } 1
      .timeout =
      some (.no_timeout, { slot := .cancelledSentinel, cancelled := true, cancel_done := true }) ∧
    waitPredStandalone { slot := .cancelledSentinel, cancelled := true, cancel_done := true } 1
      (fun _ => false) (fun _ => true) 3 =
      some { result := false, handlerConstructed := true, lastPred := 0 } :=
  cancelled_wait_returns_indication
    { slot := .cancelledSentinel, cancelled := true, cancel_done := true } 1 7 .timeout
    (fun _ => false) (fun _ => true) 3 rfl rfl

/-- C10: `rethread::read` invokes the underlying `::read` exactly when the
cancellable poll reported exactly `POLLIN`; on every other outcome -
cancellation before registration (revents `0`) or any other revents value
such as `POLLERR`, `POLLHUP`, or a combination containing `POLLIN` - it
returns `0` without reading, so a `0` return does not by itself
distinguish cancellation from an fd error or hang-up. -/
theorem read_only_on_pollin (s : StandaloneToken) (h osRevents : Nat) (osReadRet : Int)
    (r : Int) (invoked : Bool) (s1 : StandaloneToken)
    (hr : readStandalone s h osRevents osReadRet = some (r, invoked, s1)) :
    (invoked = true ↔ pollStandalone s h osRevents = some (POLLIN, s1)) ∧
    (invoked = false → r = 0) ∧
    (s.slot = .cancelledSentinel → invoked = false ∧ r = 0) ∧
    (osRevents ≠ POLLIN → invoked = false ∧ r = 0) := by
  cases hpoll : pollStandalone s h osRevents with
  | none =>
    simp only [readStandalone, hpoll] at hr
    exact Option.noConfusion hr
  | some p =>
    obtain ⟨rev, s2⟩ := p
    simp only [readStandalone, hpoll] at hr
    by_cases hrev : rev = POLLIN
    · rw [if_neg (by simpa using hrev)] at hr
      simp only [Option.some.injEq, Prod.mk.injEq] at hr
      obtain ⟨hr1, hr2, hr3⟩ := hr
      subst hr1
      subst hr2
      subst hr3
      refine ⟨⟨fun _ => by rw [← hrev], fun _ => rfl⟩, by simp, ?_, ?_⟩
      · intro hc
        have hpc : pollStandalone s h osRevents = some (0, s) := by
          simp only [pollStandalone, tryRegister_on_cancelled s h hc]
        have h2 := hpoll.symm.trans hpc
        simp only [Option.some.injEq, Prod.mk.injEq] at h2
        rw [h2.1] at hrev
        exact absurd hrev.symm (by simp [POLLIN])
      · intro hos
        have hrevents : rev = osRevents := by
          cases hreg : tryRegisterStandalone s h with
          | none =>
            simp only [pollStandalone, hreg] at hpoll
            exact Option.noConfusion hpoll
          | some q =>
            obtain ⟨sa, ba⟩ := q
            cases ba with
            | false =>
              simp only [pollStandalone, hreg, Option.some.injEq, Prod.mk.injEq] at hpoll
              rw [← hpoll.1] at hrev
              exact absurd hrev.symm (by simp [POLLIN])
            | true =>
              cases hunreg : tryUnregisterStandalone sa h with
              | none =>
                simp only [pollStandalone, hreg, hunreg] at hpoll
                exact Option.noConfusion hpoll
              | some q2 =>
                obtain ⟨sb, bb⟩ := q2
                cases bb with
                | false =>
                  simp only [pollStandalone, hreg, hunreg] at hpoll
                  exact Option.noConfusion hpoll
                | true =>
                  simp only [pollStandalone, hreg, hunreg, Option.some.injEq,
                    Prod.mk.injEq] at hpoll
                  exact hpoll.1.symm
        rw [hrevents] at hrev
        exact absurd hrev hos
    · rw [if_pos (by simpa using hrev)] at hr
      simp only [Option.some.injEq, Prod.mk.injEq] at hr
      obtain ⟨hr1, hr2, hr3⟩ := hr
      subst hr1
      subst hr2
      subst hr3
      refine ⟨⟨fun hcon => absurd hcon (by simp), fun hcon => ?_⟩, fun _ => rfl,
        fun _ => ⟨rfl, rfl⟩, fun _ => ⟨rfl, rfl⟩⟩
      simp only [Option.some.injEq, Prod.mk.injEq] at hcon
      exact absurd hcon.1 hrev

/-- Witness for C10: polling a fresh token with the OS reporting
`POLLERR` returns `0` from `read` without invoking `::read`. -/
theorem read_only_on_pollin_witness :
    (false = false ∧ (0 : Int) = 0) :=
  (read_only_on_pollin freshStandalone 1 POLLERR 42 0 false
    { slot := .null, cancelled := false, cancel_done := false } rfl).2.2.2 (by decide)

/-- Program counter of the waiter thread running one
`cancellation_guard` construction/destruction bracket
(cancellation_token.hpp lines 429-445): register (the exchange of line
85), restore after failed registration (line 93), the destructor's
try-unregister exchange (line 101), restore after failed unregistration
(line 106), the slow-path wait for `_cancel_done` under the mutex (lines
219-228), and `handler.reset()` after unlocking (line 229). -/
inductive WPC where
  | register
  | restoreReg
  | tryUnreg
  | restoreUnreg
  | slowWait
  | resetH
  | wdone
  deriving DecidableEq, Repr

/-- Program counter of a canceller thread running one
`standalone_cancellation_token::cancel()` (lines 170-193): the
mutex-protected test-and-set of `_cancelled` (lines 172-177), the slot
exchange (line 179), the conditional `cancelHandler->cancel()` (lines
182-188), and the mutex-protected `_cancel_done = true` plus notify
(lines 190-192). -/
inductive CPC where
  | checkFlag
  | exch
  | callH
  | markDone
  | cdone
  deriving DecidableEq, Repr

/-- A configuration of the token/guard handshake: the atomic slot, the
mutex-protected flags, the guard's registration record, observation flags
(fast path taken, `reset()` count, `handler.cancel()` count, a
RETHREAD_ASSERT or undefined-behaviour marker), and the program counters
of the waiter and of two canceller threads (each holding the previous slot
value read by its exchange).  Mutex-protected critical sections that touch
only `_cancelled`/`_cancel_done` are collapsed into single atomic steps,
which is sound because those fields are accessed only under the mutex; the
slot exchanges and sentinel restores are separate steps, exactly as in the
source, where the restores are plain stores distinct from the exchange. -/
structure HandshakeConf where
  slot : Slot
  cancelled : Bool
  cancel_done : Bool
  registered : Bool
  fastpath : Bool
  resets : Nat
  cancels : Nat
  bad : Bool
  pcW : WPC
  pcC1 : CPC
  prevC1 : Slot
  pcC2 : CPC
  prevC2 : Slot
  deriving DecidableEq, Repr

/-- One atomic step of the waiter.  `none` when the waiter is finished or
blocked (the slow-path wait is enabled only once `_cancel_done` holds,
which models the condition-variable wait releasing the mutex). -/
def stepW (c : HandshakeConf) : Option HandshakeConf :=
  match c.pcW with
  | .register =>
    match c.slot with
    | .null => some { c with slot := .handler 0, registered := true, pcW := .tryUnreg }
    | .cancelledSentinel => some { c with slot := .handler 0, pcW := .restoreReg }
    | _ => some { c with slot := .handler 0, bad := true, pcW := .wdone }
  | .restoreReg => some { c with slot := .cancelledSentinel, pcW := .wdone }
  | .tryUnreg =>
    match c.slot with
    | .handler _ => some { c with slot := .null, fastpath := true, pcW := .wdone }
    | .cancelledSentinel => some { c with slot := .null, pcW := .restoreUnreg }
    | _ => some { c with slot := .null, bad := true, pcW := .wdone }
  | .restoreUnreg => some { c with slot := .cancelledSentinel, pcW := .slowWait }
  | .slowWait =>
    if c.cancel_done then
      some { c with
        bad := c.bad || !(c.cancelled && c.slot == .cancelledSentinel),
        pcW := .resetH }
    else none
  | .resetH => some { c with resets := c.resets + 1, pcW := .wdone }
  | .wdone => none

/-- One atomic step of a canceller given its program counter and saved
previous slot value; returns the new configuration (canceller-local parts
excluded) with the new program counter and saved value.  In `callH` the
cancelled sentinel would trip the RETHREAD_ASSERT of line 180 and the
not-initialised sentinel would be called as a handler address (undefined
behaviour); both set `bad`. -/
def stepCancel (c : HandshakeConf) (pc : CPC) (prev : Slot) :
    Option (HandshakeConf × CPC × Slot) :=
  match pc with
  | .checkFlag =>
    if c.cancelled then some (c, .cdone, prev)
    else some ({ c with cancelled := true }, .exch, prev)
  | .exch => some ({ c with slot := .cancelledSentinel }, .callH, c.slot)
  | .callH =>
    match prev with
    | .handler _ => some ({ c with cancels := c.cancels + 1 }, .markDone, prev)
    | .null => some (c, .markDone, prev)
    | _ => some ({ c with bad := true }, .markDone, prev)
  | .markDone => some ({ c with cancel_done := true }, .cdone, prev)
  | .cdone => none

/-- Step of the first canceller thread. -/
def stepC1 (c : HandshakeConf) : Option HandshakeConf :=
  match stepCancel c c.pcC1 c.prevC1 with
  | none => none
  | some (c1, pc, prev) => some { c1 with pcC1 := pc, prevC1 := prev }

/-- Step of the second canceller thread. -/
def stepC2 (c : HandshakeConf) : Option HandshakeConf :=
  match stepCancel c c.pcC2 c.prevC2 with
  | none => none
  | some (c1, pc, prev) => some { c1 with pcC2 := pc, prevC2 := prev }

/-- The initial configuration: a live token with a null slot, the guard
about to construct, both cancellers about to call `cancel()`. -/
def initHandshake : HandshakeConf :=
  { slot := .null, cancelled := false, cancel_done := false, registered := false,
    fastpath := false, resets := 0, cancels := 0, bad := false,
    pcW := .register, pcC1 := .checkFlag, prevC1 := .null,
    pcC2 := .checkFlag, prevC2 := .null }

/-- Scheduler choice: 0 runs the waiter, 1 the first canceller, anything
else the second canceller. -/
def stepOf (i : Nat) (c : HandshakeConf) : Option HandshakeConf :=
  if i = 0 then stepW c else if i = 1 then stepC1 c else stepC2 c

/-- Run a schedule (a list of scheduler choices) from a configuration; a
finished or blocked thread's turn leaves the configuration unchanged. -/
def runFrom (c : HandshakeConf) : List Nat → HandshakeConf
  | [] => c
  | i :: rest => runFrom ((stepOf i c).getD c) rest

/-- Run a schedule from the initial configuration. -/
def runSched (l : List Nat) : HandshakeConf :=
  runFrom initHandshake l

/-- All three threads have finished. -/
def handshakeDone (c : HandshakeConf) : Bool :=
  c.pcW == .wdone && c.pcC1 == .cdone && c.pcC2 == .cdone

/-- Configurations one step away. -/
def succsHandshake (c : HandshakeConf) : List HandshakeConf :=
  (stepW c).toList ++ (stepC1 c).toList ++ (stepC2 c).toList

/-- Depth-first exploration of the reachable configurations. -/
def exploreHandshake : Nat → List HandshakeConf → List HandshakeConf → List HandshakeConf
  | 0, _, visited => visited
  | _ + 1, [], visited => visited
  | fuel + 1, c :: frontier, visited =>
    if c ∈ visited then exploreHandshake fuel frontier visited
    else exploreHandshake fuel (succsHandshake c ++ frontier) (c :: visited)

/-- The reachable configurations of the handshake. -/
def handshakeReach : List HandshakeConf :=
  exploreHandshake 2000 [initHandshake] []

/-- The invariant checked on every reachable configuration: no assert or
undefined behaviour fires, `handler.cancel()` runs at most once,
`handler.reset()` runs at most once, and in every completed run in which
the guard registered, either the fast path succeeded and `reset()` never
ran, or the slow path ran `reset()` exactly once. -/
def handshakeInv (c : HandshakeConf) : Bool :=
  !c.bad && decide (c.cancels ≤ 1) && decide (c.resets ≤ 1) &&
  (!handshakeDone c || !c.registered ||
    ((c.fastpath && c.resets == 0) || (!c.fastpath && c.resets == 1)))

/-- The exhaustive check: the initial configuration is explored, the
explored set is closed under steps, and every explored configuration
satisfies the invariant. -/
def handshakeCheck : Bool :=
  decide (initHandshake ∈ handshakeReach) &&
  handshakeReach.all (fun c => (succsHandshake c).all fun c1 => decide (c1 ∈ handshakeReach)) &&
  handshakeReach.all handshakeInv

set_option maxRecDepth 40000 in
theorem handshakeCheck_eq : handshakeCheck = true := by
  decide

theorem handshakeReach_facts :
    initHandshake ∈ handshakeReach ∧
    (∀ c ∈ handshakeReach, ∀ c1 ∈ succsHandshake c, c1 ∈ handshakeReach) ∧
    (∀ c ∈ handshakeReach, handshakeInv c = true) := by
  have h := handshakeCheck_eq
  simp only [handshakeCheck, Bool.and_eq_true, List.all_eq_true, decide_eq_true_eq] at h
  exact ⟨h.1.1, fun c hc c1 hc1 => h.1.2 c hc c1 hc1, fun c hc => h.2 c hc⟩

theorem runFrom_mem_reach (l : List Nat) :
    ∀ c, c ∈ handshakeReach → runFrom c l ∈ handshakeReach := by
  induction l with
  | nil =>
    intro c hc
    exact hc
  | cons i rest ih =>
    intro c hc
    simp only [runFrom]
    cases hstep : stepOf i c with
    | none =>
      simp only [Option.getD_none]
      exact ih c hc
    | some c1 =>
      simp only [Option.getD_some]
      refine ih c1 (handshakeReach_facts.2.1 c hc c1 ?_)
      by_cases h0 : i = 0
      · subst h0
        simp only [stepOf, if_pos] at hstep
        simp [succsHandshake, hstep]
      · by_cases h1 : i = 1
        · subst h1
          simp [stepOf] at hstep
          simp [succsHandshake, hstep]
        · simp [stepOf, h0, h1] at hstep
          simp [succsHandshake, hstep]

/-- C4 as stated is refuted by the interleaving in which one `cancel()`
runs to completion before the guard constructor: registration fails, so
the destructor does nothing - neither the fast-path try-unregister nor the
slow path with `handler.reset()` fires - even though the bracket and the
concurrent cancels all completed.  (`handler.cancel()` was also not
invoked, consistent with the at-most-once part.) -/
theorem guard_teardown_counterexample :
    handshakeDone (runSched [1, 1, 1, 1, 2, 0, 0]) = true ∧
    (runSched [1, 1, 1, 1, 2, 0, 0]).registered = false ∧
    (runSched [1, 1, 1, 1, 2, 0, 0]).fastpath = false ∧
    (runSched [1, 1, 1, 1, 2, 0, 0]).resets = 0 ∧
    (runSched [1, 1, 1, 1, 2, 0, 0]).cancels = 0 := by
  refine ⟨rfl, rfl, rfl, rfl, rfl⟩

/-- C4 amended: in every interleaving of one guard bracket with two
concurrent `cancel()` calls, no assert fires, `handler.cancel()` is
invoked at most once and, in every completed run in which the guard
constructor's registration succeeded, exactly one of the two teardown
outcomes occurs: either the fast-path try-unregister succeeds and
`reset()` never runs, or the slow path runs and calls `handler.reset()`
exactly once. -/
theorem guard_teardown_exclusive (l : List Nat)
    (hdone : handshakeDone (runSched l) = true) :
    (runSched l).bad = false ∧
    (runSched l).cancels ≤ 1 ∧
    ((runSched l).registered = true →
      ((runSched l).fastpath = true ∧ (runSched l).resets = 0) ∨
      ((runSched l).fastpath = false ∧ (runSched l).resets = 1)) := by
  have hmem : runSched l ∈ handshakeReach :=
    runFrom_mem_reach l initHandshake handshakeReach_facts.1
  have hinv := handshakeReach_facts.2.2 _ hmem
  simp only [handshakeInv, hdone, Bool.not_true, Bool.false_or, Bool.and_eq_true,
    Bool.or_eq_true, Bool.not_eq_true', decide_eq_true_eq, beq_iff_eq] at hinv
  refine ⟨hinv.1.1.1, hinv.1.1.2, ?_⟩
  intro hreg
  rcases hinv.2 with hnr | hcase
  · rw [hreg] at hnr
    exact Bool.noConfusion hnr
  · rcases hcase with ⟨hf, hr⟩ | ⟨hf, hr⟩
    · exact Or.inl ⟨hf, hr⟩
    · exact Or.inr ⟨Bool.eq_false_iff.2 (by rw [hf]; simp), hr⟩

/-- Witness for the amended C4: the interleaving register, full cancel,
second cancel no-op, then the destructor: the fast path fails, the slow
path waits for `_cancel_done` and calls `reset()` exactly once, and
`handler.cancel()` ran exactly once. -/
theorem guard_teardown_exclusive_witness :
    (runSched [0, 1, 1, 1, 1, 2, 0, 0, 0, 0]).bad = false ∧
    (runSched [0, 1, 1, 1, 1, 2, 0, 0, 0, 0]).cancels ≤ 1 ∧
    ((runSched [0, 1, 1, 1, 1, 2, 0, 0, 0, 0]).registered = true →
      ((runSched [0, 1, 1, 1, 1, 2, 0, 0, 0, 0]).fastpath = true ∧
        (runSched [0, 1, 1, 1, 1, 2, 0, 0, 0, 0]).resets = 0) ∨
      ((runSched [0, 1, 1, 1, 1, 2, 0, 0, 0, 0]).fastpath = false ∧
        (runSched [0, 1, 1, 1, 1, 2, 0, 0, 0, 0]).resets = 1)) :=
  guard_teardown_exclusive [0, 1, 1, 1, 1, 2, 0, 0, 0, 0] rfl

end Rethread
